import Mathlib

/-!
Verification development for the browser-detection repository.

The repository is a browser-fingerprinting system: a JavaScript client
(static/js) renders deterministic canvas/WebGL/audio probes, hashes the
results with SHA-256 (Web Crypto), detects noise injection, and submits a
composite fingerprint to a Go backend (internal/) that scores the request
and persists one analysis row per fingerprint hash in SQLite.

Modelling conventions used throughout this file:
* Go `float64` and JavaScript numbers are modelled as `ℚ`; every numeric
  constant in the scored code is an exact decimal, so the arithmetic of the
  verified properties is unaffected.
* Byte buffers are `List Nat` with values `< 256`; strings are Lean
  `String`s, converted to UTF-8 bytes exactly as Go's `[]byte(s)` and the
  client's `TextEncoder` do.
* SQLite tables are association lists of rows; `INSERT OR REPLACE` on a
  `UNIQUE` column removes the conflicting row and appends the new one.
-/

namespace BrowserDetection

/-! ### SHA-256

Embedding of the digest primitive used on both sides of the wire:
`crypto.subtle.digest("SHA-256", ...)` in `static/js/utils/crypto-utils.js`
and `crypto/sha256.Sum256` in `internal/utils/database.go`.  Words are `Nat`
reduced mod `2 ^ 32` at every step; the digest is the 32 big-endian bytes of
the final eight words. -/

/-- Right-rotate a 32-bit word by `n`. -/
def rotr32 (n x : Nat) : Nat := ((x >>> n) ||| (x <<< (32 - n))) % 2 ^ 32

/-- SHA-256 choice function `Ch(x,y,z)`. -/
def shaCh (x y z : Nat) : Nat := ((x &&& y) ^^^ ((x ^^^ 0xffffffff) &&& z)) % 2 ^ 32

/-- SHA-256 majority function `Maj(x,y,z)`. -/
def shaMaj (x y z : Nat) : Nat := ((x &&& y) ^^^ (x &&& z) ^^^ (y &&& z)) % 2 ^ 32

/-- SHA-256 big sigma-0. -/
def shaS0 (x : Nat) : Nat := rotr32 2 x ^^^ rotr32 13 x ^^^ rotr32 22 x

/-- SHA-256 big sigma-1. -/
def shaS1 (x : Nat) : Nat := rotr32 6 x ^^^ rotr32 11 x ^^^ rotr32 25 x

/-- SHA-256 small sigma-0 (message schedule). -/
def shaLs0 (x : Nat) : Nat := rotr32 7 x ^^^ rotr32 18 x ^^^ (x >>> 3)

/-- SHA-256 small sigma-1 (message schedule). -/
def shaLs1 (x : Nat) : Nat := rotr32 17 x ^^^ rotr32 19 x ^^^ (x >>> 10)

/-- The 64 SHA-256 round constants (FIPS 180-4), in decimal. -/
def shaK : List Nat :=
  [1116352408, 1899447441, 3049323471, 3921009573, 961987163,
   1508970993, 2453635748, 2870763221, 3624381080, 310598401,
   607225278, 1426881987, 1925078388, 2162078206, 2614888103,
   3248222580, 3835390401, 4022224774, 264347078, 604807628,
   770255983, 1249150122, 1555081692, 1996064986, 2554220882,
   2821834349, 2952996808, 3210313671, 3336571891, 3584528711,
   113926993, 338241895, 666307205, 773529912, 1294757372,
   1396182291, 1695183700, 1986661051, 2177026350, 2456956037,
   2730485921, 2820302411, 3259730800, 3345764771, 3516065817,
   3600352804, 4094571909, 275423344, 430227734, 506948616,
   659060556, 883997877, 958139571, 1322822218, 1537002063,
   1747873779, 1955562222, 2024104815, 2227730452, 2361852424,
   2428436474, 2756734187, 3204031479, 3329325298]

/-- The eight working words of the SHA-256 state. -/
structure Hash8 where
  a : Nat
  b : Nat
  c : Nat
  d : Nat
  e : Nat
  f : Nat
  g : Nat
  h : Nat

/-- The SHA-256 initial hash value (FIPS 180-4), in decimal. -/
def initH : Hash8 :=
  ⟨1779033703, 3144134277, 1013904242, 2773480762,
   1359893119, 2600822924, 528734635, 1541459225⟩

/-- Pack big-endian byte quadruples into 32-bit words. -/
def toWords : List Nat → List Nat
  | b0 :: b1 :: b2 :: b3 :: rest => (b0 * 2 ^ 24 + b1 * 2 ^ 16 + b2 * 2 ^ 8 + b3) :: toWords rest
  | _ => []

/-- Extend the 16-word message schedule by `n` further words. -/
def extendW (w : List Nat) : Nat → List Nat
  | 0 => w
  | n + 1 =>
    let i := w.length
    let nw := (shaLs1 (w.getD (i - 2) 0) + w.getD (i - 7) 0
      + shaLs0 (w.getD (i - 15) 0) + w.getD (i - 16) 0) % 2 ^ 32
    extendW (w ++ [nw]) n

/-- One SHA-256 compression round. -/
def shaRound (st : Hash8) (kw wt : Nat) : Hash8 :=
  let t1 := (st.h + shaS1 st.e + shaCh st.e st.f st.g + kw + wt) % 2 ^ 32
  let t2 := (shaS0 st.a + shaMaj st.a st.b st.c) % 2 ^ 32
  ⟨(t1 + t2) % 2 ^ 32, st.a, st.b, st.c, (st.d + t1) % 2 ^ 32, st.e, st.f, st.g⟩

/-- Compress one 64-byte block into the chaining state. -/
def compressBlock (h0 : Hash8) (block : List Nat) : Hash8 :=
  let w := extendW (toWords block) 48
  let st := (shaK.zip w).foldl (fun st p => shaRound st p.1 p.2) h0
  ⟨(h0.a + st.a) % 2 ^ 32, (h0.b + st.b) % 2 ^ 32, (h0.c + st.c) % 2 ^ 32,
   (h0.d + st.d) % 2 ^ 32, (h0.e + st.e) % 2 ^ 32, (h0.f + st.f) % 2 ^ 32,
   (h0.g + st.g) % 2 ^ 32, (h0.h + st.h) % 2 ^ 32⟩

/-- Split a byte list into 64-byte chunks. -/
def chunks64 (l : List Nat) : List (List Nat) :=
  if h : l = [] then []
  else l.take 64 :: chunks64 (l.drop 64)
termination_by l.length
decreasing_by
  simp only [List.length_drop]
  have : 0 < l.length := List.length_pos.mpr h
  omega

/-- SHA-256 padding: append `0x80`, zeros to 56 mod 64, then the bit length
as eight big-endian bytes. -/
def padMessage (msg : List Nat) : List Nat :=
  let L := msg.length
  let k := (119 - L % 64) % 64
  let lenBits := 8 * L
  msg ++ [0x80] ++ List.replicate k 0 ++
    [(lenBits >>> 56) % 256, (lenBits >>> 48) % 256, (lenBits >>> 40) % 256,
     (lenBits >>> 32) % 256, (lenBits >>> 24) % 256, (lenBits >>> 16) % 256,
     (lenBits >>> 8) % 256, lenBits % 256]

/-- The four big-endian bytes of a 32-bit word. -/
def wordBytes (w : Nat) : List Nat :=
  [(w >>> 24) % 256, (w >>> 16) % 256, (w >>> 8) % 256, w % 256]

/-- SHA-256 digest of a byte message: 32 bytes. -/
def sha256 (msg : List Nat) : List Nat :=
  let fin := (chunks64 (padMessage msg)).foldl compressBlock initH
  wordBytes fin.a ++ wordBytes fin.b ++ wordBytes fin.c ++ wordBytes fin.d ++
  wordBytes fin.e ++ wordBytes fin.f ++ wordBytes fin.g ++ wordBytes fin.h

theorem wordBytes_length (w : Nat) : (wordBytes w).length = 4 := rfl

theorem wordBytes_lt (w : Nat) : ∀ b ∈ wordBytes w, b < 256 := by
  intro b hb
  simp only [wordBytes, List.mem_cons, List.not_mem_nil, or_false] at hb
  rcases hb with h | h | h | h <;> subst h <;> omega

/-- The digest always has exactly 32 bytes. -/
theorem sha256_length (msg : List Nat) : (sha256 msg).length = 32 := by
  simp [sha256, wordBytes]

/-- Every digest byte is below 256. -/
theorem sha256_lt (msg : List Nat) : ∀ b ∈ sha256 msg, b < 256 := by
  intro b hb
  simp only [sha256, List.mem_append] at hb
  rcases hb with ((((((h | h) | h) | h) | h) | h) | h) | h <;>
    exact wordBytes_lt _ b h

/-! ### Hex encoding

`CryptoUtils.buf2hex` (crypto-utils.js lines 19-23) renders each byte as two
lowercase hex digits via `byte.toString(16).padStart(2, "0")`; Go's
`hex.EncodeToString` (database.go line 117) produces the same encoding. -/

/-- One lowercase hexadecimal digit for `n < 16`. -/
def hexChar (n : Nat) : Char :=
  if n < 10 then Char.ofNat (48 + n) else Char.ofNat (87 + n)

/-- Render a byte buffer as a lowercase hex string, two digits per byte. -/
def buf2hex (bytes : List Nat) : String :=
  ⟨bytes.flatMap (fun b => [hexChar (b / 16), hexChar (b % 16)])⟩

/-- Whether a character is a lowercase hexadecimal digit. -/
def isHexDigitChar (c : Char) : Bool :=
  (decide ('0' ≤ c) && decide (c ≤ '9')) || (decide ('a' ≤ c) && decide (c ≤ 'f'))

/-- Whether a string is a 64-character lowercase hexadecimal string. -/
def isHex64 (s : String) : Bool :=
  s.length == 64 && s.data.all isHexDigitChar

theorem hexChar_isHexDigit {n : Nat} (h : n < 16) : isHexDigitChar (hexChar n) = true := by
  interval_cases n <;> decide

theorem buf2hex_length (bytes : List Nat) : (buf2hex bytes).length = 2 * bytes.length := by
  induction bytes with
  | nil => rfl
  | cons b bs ih =>
    simp only [buf2hex, String.length_mk, List.flatMap_cons, List.length_append,
      List.length_cons, List.length_nil] at *
    omega

theorem buf2hex_all_hex {bytes : List Nat} (hb : ∀ b ∈ bytes, b < 256) :
    (buf2hex bytes).data.all isHexDigitChar = true := by
  show (bytes.flatMap (fun b => [hexChar (b / 16), hexChar (b % 16)])).all isHexDigitChar = true
  induction bytes with
  | nil => rfl
  | cons b bs ih =>
    have hblt : b < 256 := hb b (List.mem_cons_self b bs)
    have h1 : b / 16 < 16 := by omega
    have h2 : b % 16 < 16 := by omega
    rw [List.flatMap_cons, List.all_append]
    have hrest := ih fun x hx => hb x (List.mem_cons_of_mem b hx)
    simp [hrest, List.all_cons, hexChar_isHexDigit h1, hexChar_isHexDigit h2]

/-- Hex-encoding a SHA-256 digest always yields 64 lowercase hex characters. -/
theorem buf2hex_sha256_isHex64 (msg : List Nat) : isHex64 (buf2hex (sha256 msg)) = true := by
  simp only [isHex64, Bool.and_eq_true, beq_iff_eq]
  refine ⟨?_, buf2hex_all_hex (sha256_lt msg)⟩
  rw [buf2hex_length, sha256_length]

/-! ### Strings as UTF-8 bytes

Go's `[]byte(combined)` and the client's `TextEncoder().encode(str)` both
produce the UTF-8 bytes of the string. -/

/-- The UTF-8 bytes of a string. -/
def strBytes (s : String) : List Nat := s.toUTF8.toList.map UInt8.toNat

/-- String hashing as done by `CryptoUtils.hashString` (crypto-utils.js
lines 30-35): UTF-8 encode, SHA-256, lowercase hex. -/
def hashString (s : String) : String := buf2hex (sha256 (strBytes s))

/-! ### Fingerprint aggregation

`ModernFingerprintCollector.generateMainFingerprint`
(modern-fingerprint.js lines 888-908) joins the nine per-modality
sub-fingerprint strings with `"|"` and hashes the join.  The collector's
`this.fingerprint` object also carries a `timestamp` (line 59) and other
data, none of which enters the join. -/

/-- The per-modality sub-fingerprints of one collection session, as read by
`generateMainFingerprint` via `this.fingerprint.X?.fingerprint`; `none`
models an absent component object (the JS `?.` + `|| ""` fallback).  The
`timestamp` field is the session timestamp set in `collectAll` (line 59);
it is carried here to state that it cannot influence the main hash. -/
structure CollectedFingerprint where
  basic : Option String
  screen : Option String
  timezone : Option String
  hardware : Option String
  canvas : Option String
  webgl : Option String
  audio : Option String
  fonts : Option String
  storage : Option String
  timestamp : Nat

/-- Embedding of `generateMainFingerprint` (modern-fingerprint.js lines
888-908): the
nine component fingerprints, in fixed order, joined with `"|"`, then
SHA-256 hashed via `CryptoUtils.hashString`. -/
def generateMainFingerprint (fp : CollectedFingerprint) : String :=
  let fingerprintComponents :=
    [fp.basic.getD "", fp.screen.getD "", fp.timezone.getD "", fp.hardware.getD "",
     fp.canvas.getD "", fp.webgl.getD "", fp.audio.getD "", fp.fonts.getD "",
     fp.storage.getD ""]
  let combinedFingerprint := String.intercalate "|" fingerprintComponents
  hashString combinedFingerprint

/-! ### Canvas pixel analysis

`CanvasUtils.analyzePixels` (canvas-utils.js lines 87-145); the identical
logic also appears as `analyzeCanvasPixels` in the legacy collector
(fingerprint.js lines 1387-1433).  The buffer is RGBA, four bytes per
pixel; the reported `entropy` field (red-channel Shannon entropy, a real
number) is informational only and does not enter `hasNoise` or
`confidence`, so it is omitted here. -/

/-- One RGBA pixel of the readback buffer. -/
structure Pixel where
  r : Nat
  g : Nat
  b : Nat
  a : Nat

/-- The cross-channel variance `|R-G| + |G-B| + |B-R|` of a pixel
(canvas-utils.js line 101). -/
def pixelVariance (p : Pixel) : Int :=
  ((p.r : Int) - p.g).natAbs + ((p.g : Int) - p.b).natAbs + ((p.b : Int) - p.r).natAbs

/-- Whether a pixel counts as suspicious (canvas-utils.js lines 100-105):
opaque, with variance strictly inside the 30-200 band. -/
def suspiciousPixel (p : Pixel) : Bool :=
  decide (0 < p.a) && decide (30 < pixelVariance p) && decide (pixelVariance p < 200)

/-- The result of `CanvasUtils.analyzePixels`. -/
structure PixelAnalysis where
  hasNoise : Bool
  type : String
  confidence : ℚ
  totalPixels : Nat
  suspiciousPixels : Nat

/-- Embedding of `CanvasUtils.analyzePixels` (canvas-utils.js lines
87-145): count
suspicious pixels, divide by the total pixel count, flag noise above a 10%
ratio with confidence `min(ratio * 2, 0.95)`, else report clean with
confidence 0.8. -/
def analyzePixels (pixelData : List Pixel) : PixelAnalysis :=
  let totalPixels := pixelData.length
  let suspiciousCount := pixelData.countP suspiciousPixel
  let suspiciousRatio : ℚ := (suspiciousCount : ℚ) / (totalPixels : ℚ)
  if suspiciousRatio > 0.1 then
    { hasNoise := true, type := "pixel_noise",
      confidence := min ( suspiciousRatio * 2) 0.95,
      totalPixels := totalPixels, suspiciousPixels := suspiciousCount }
  else
    { hasNoise := false, type := "pixel_clean", confidence := 0.8,
      totalPixels := totalPixels, suspiciousPixels := suspiciousCount }

/-! ### Canvas noise detection (legacy collector)

`detectCanvasNoise` (fingerprint.js lines 1318-1384): the canvas test
pattern is rendered once (`originalData`), then re-rendered twice; dynamic
noise is any re-render differing from the original.  Static noise is the
pixel-analysis flag OR a high data-entropy signal (`entropy > 7.8`, line
1356); the Shannon entropy of the encoded data URL is real-valued, so the
already-computed entropy value is taken here as an input. -/

/-- The per-modality verdict produced by the canvas noise detector. -/
structure CanvasNoiseResult where
  hasDynamicNoise : Bool
  hasStaticNoise : Bool
  confidence : ℚ

/-- Embedding of `detectCanvasNoise` (fingerprint.js lines 1318-1384), as
a function of
the original data URL, the two re-render data URLs, the pixel buffer and
the entropy of the original data URL. -/
def detectCanvasNoise (originalData render1 render2 : String) (pixelData : List Pixel)
    (entropy : ℚ) : CanvasNoiseResult :=
  let results := [render1, render2]
  let hasDynamicNoise := !(results.all (fun d => d == originalData))
  let pixelAnalysis := analyzePixels pixelData
  let hasHighEntropy := decide (entropy > 7.8)
  let hasStaticNoise := pixelAnalysis.hasNoise || hasHighEntropy
  { hasDynamicNoise := hasDynamicNoise, hasStaticNoise := hasStaticNoise,
    confidence := if hasDynamicNoise || hasStaticNoise then 0.9 else 0.8 }

/-! ### WebGL spoofing analysis

The persistent-noise probe (fingerprint.js lines 283-311, identically
modern-fingerprint.js lines 616-642) hashes the red-rectangle readback and
compares it against the allow-list `knownHashes`
(`WebGLUtils.KNOWN_HASHES`, webgl-utils.js lines 5-8); `isSpoofed` is
non-membership.  `analyzeWebGLSpoofing` (fingerprint.js lines 476-536)
fuses the persistent and random probe results into one verdict with a
confidence built from `Math.max`. -/

/-- The single allow-listed red-rectangle reference hash
(webgl-utils.js line 7, fingerprint.js line 298). -/
def redRectangleKnownHash : String :=
  "bf9da7959d914298f9ce9e41a480fd66f76fac5c6f5e0a9b5a99b18cfc6fd997"

/-- The allow-list of known-good red-rectangle hashes. -/
def knownHashes : List String := [redRectangleKnownHash]

/-- The resolved result of the persistent-noise probe (fingerprint.js
lines 304-310). -/
structure PersistentNoiseResult where
  fingerprint : String
  isKnownFingerprint : Bool
  isSpoofed : Bool

/-- The allow-list comparison of the persistent-noise probe
(fingerprint.js lines 296-310): `isSpoofed` iff the readback hash is not
in `knownHashes`. -/
def persistentNoiseVerdict (fingerprint : String) : PersistentNoiseResult :=
  let isKnownFingerprint := knownHashes.contains fingerprint
  { fingerprint := fingerprint, isKnownFingerprint := isKnownFingerprint,
    isSpoofed := !isKnownFingerprint }

/-- The resolved result of the random-noise (before/after DOM load) probe
(fingerprint.js lines 438-446). -/
structure RandomNoiseResult where
  beforeDOMLoad : String
  afterDOMLoad : String
  isSpoofed : Bool

/-- The fused WebGL verdict (fingerprint.js lines 478-485). -/
structure WebGLSpoofAnalysis where
  isSpoofed : Bool
  hasPersistentNoise : Bool
  hasRandomNoise : Bool
  confidence : ℚ

/-- Embedding of `analyzeWebGLSpoofing` (fingerprint.js lines 476-524):
take the
persistent and random probe verdicts (either may be absent), raise
confidence to at least 0.8 on persistent noise and at least 0.9 on random
noise via `Math.max`, and to at least 0.7 when clean. -/
def analyzeWebGLSpoofing (persistentNoise : Option PersistentNoiseResult)
    (randomNoise : Option RandomNoiseResult) : WebGLSpoofAnalysis :=
  let hasPersistentNoise := match persistentNoise with
    | some p => p.isSpoofed
    | none => false
  let conf1 : ℚ := match persistentNoise with
    | some p => if p.isSpoofed then max 0 0.8 else 0
    | none => 0
  let hasRandomNoise := match randomNoise with
    | some r => r.isSpoofed
    | none => false
  let conf2 : ℚ := match randomNoise with
    | some r => if r.isSpoofed then max conf1 0.9 else conf1
    | none => conf1
  let isSpoofed := hasPersistentNoise || hasRandomNoise
  let conf3 : ℚ := if isSpoofed then conf2 else max conf2 0.7
  { isSpoofed := isSpoofed, hasPersistentNoise := hasPersistentNoise,
    hasRandomNoise := hasRandomNoise, confidence := conf3 }

/-! ### Audio compressor analysis

`AudioUtils.analyzeCompressorResults` (audio-utils.js lines 320-421; the
legacy twin is fingerprint.js lines 940-1013).  Each trial
(`runCompressorTest`, lines 168-228) carries a main fingerprint string
(`"error"` on failure), four per-segment windowed-sum fingerprints
(`calculateEnhancedFingerprint`, lines 235-279: segments `main`, `early`,
`mid`, `late`), and a wall-clock render time. -/

/-- The four per-segment fingerprints of one audio trial. -/
structure DetailedFp where
  main : String
  early : String
  mid : String
  late : String

/-- One audio compressor trial result; `detailedFingerprint = none` models
the JS `null` of the error path of `runCompressorTest`. -/
structure AudioTest where
  fingerprint : String
  detailedFingerprint : Option DetailedFp
  renderTime : ℚ

/-- The analysis object returned by `analyzeCompressorResults`.  The JS
error-branch objects omit `mainFingerprintMatch` and `noiseIndicators`;
those absent fields are modelled as `false` / `0`. -/
structure AudioAnalysis where
  hasDynamicNoise : Bool
  confidence : ℚ
  mainFingerprintMatch : Bool
  noiseIndicators : Nat

/-- The number of the four audio segments whose fingerprints differ
(audio-utils.js lines 360-368). -/
def segMismatchCount (d1 d2 : DetailedFp) : Nat :=
  (if d1.main ≠ d2.main then 1 else 0) + (if d1.early ≠ d2.early then 1 else 0)
  + (if d1.mid ≠ d2.mid then 1 else 0) + (if d1.late ≠ d2.late then 1 else 0)

/-- Relative render-time difference `|t1 - t2| / ((t1 + t2) / 2)`
(audio-utils.js lines 383-385). -/
def timeVarianceOf (rt1 rt2 : ℚ) : ℚ := |rt1 - rt2| / ((rt1 + rt2) / 2)

/-- Embedding of `AudioUtils.analyzeCompressorResults` (audio-utils.js
lines 320-421):
fewer than two trials, or an `"error"` trial fingerprint, yields no noise
claim with confidence 0; otherwise noise indicators are counted for a main
fingerprint mismatch, for any mismatched segment (when both detailed
fingerprints are present), and for a render-time variance above 0.5 (only
when both render times are nonzero, the JS truthiness test); dynamic noise
is a main mismatch or a segment mismatch, and confidence is
`min(0.95, 0.6 + 0.15 * noiseIndicators)` with noise, else 0.8. -/
def analyzeCompressorResults (testResults : List AudioTest) : AudioAnalysis :=
  match testResults with
  | test1 :: test2 :: _ =>
    if test1.fingerprint = "error" ∨ test2.fingerprint = "error" then
      { hasDynamicNoise := false, confidence := 0,
        mainFingerprintMatch := false, noiseIndicators := 0 }
    else
      let mainFingerprintMatch := test1.fingerprint == test2.fingerprint
      let segMismatch := match test1.detailedFingerprint, test2.detailedFingerprint with
        | some d1, some d2 => decide (0 < segMismatchCount d1 d2)
        | _, _ => false
      let hasDynamicNoise := !mainFingerprintMatch || segMismatch
      let noiseIndicators : Nat :=
        (if mainFingerprintMatch then 0 else 1)
        + (if segMismatch then 1 else 0)
        + (if test1.renderTime ≠ 0 ∧ test2.renderTime ≠ 0 ∧
            timeVarianceOf test1.renderTime test2.renderTime > 0.5 then 1 else 0)
      let confidence : ℚ :=
        if hasDynamicNoise then min 0.95 (0.6 + (noiseIndicators : ℚ) * 0.15) else 0.8
      { hasDynamicNoise := hasDynamicNoise, confidence := confidence,
        mainFingerprintMatch := mainFingerprintMatch, noiseIndicators := noiseIndicators }
  | _ =>
    { hasDynamicNoise := false, confidence := 0,
      mainFingerprintMatch := false, noiseIndicators := 0 }

/-! ### Backend string helpers

Structural embeddings of `strings.ToLower`, `strings.Contains` and Go's
byte-length `len` on strings, written by recursion on character lists so
that concrete instances reduce inside the kernel. -/

/-- Embedding of `strings.ToLower`, character by character. -/
def strToLower (s : String) : String := ⟨s.data.map Char.toLower⟩

/-- Whether `pat` occurs at the head of `l`. -/
def leadsWith : List Char → List Char → Bool
  | [], _ => true
  | _ :: _, [] => false
  | a :: as, b :: bs => a == b && leadsWith as bs

/-- Whether `pat` occurs contiguously anywhere in `l`. -/
def hasSubList (pat : List Char) (l : List Char) : Bool :=
  match l with
  | [] => leadsWith pat []
  | _ :: t => leadsWith pat l || hasSubList pat t

/-- Embedding of `strings.Contains s sub`. -/
def strContains (s sub : String) : Bool := hasSubList sub.data s.data

/-- Go's `len` on a string: its UTF-8 byte count. -/
def goStrLen (s : String) : Nat := (s.data.map Char.utf8Size).sum

/-! ### Backend data model

`internal/models` (Fingerprint, NoiseDetection, FingerprintRequest,
Analysis).  The `Fonts`/`Plugins` columns of `models.Fingerprint` hold
JSON-encoded string arrays produced by `utils.StringSliceToJSON` and read
back by `utils.JSONToStringSlice`; they are modelled directly as the
decoded string lists.  Fields never read by the scored logic (IP address,
timestamps, the JSON `reasons` report) are omitted. -/

/-- The stored fingerprint record (`models.Fingerprint`), restricted to the
fields the analysis logic reads. -/
structure Fingerprint where
  fingerprintHash : String
  userAgent : String
  screenResolution : String
  canvas : String
  webGL : String
  audio : String
  fonts : List String
  plugins : List String
  touchSupport : Bool

/-- A client-submitted noise verdict (`models.NoiseDetection`); the
`confidence` arrives from the wire unvalidated. -/
structure NoiseDetection where
  hasNoise : Bool
  type : String
  confidence : ℚ

/-- The parts of `models.FingerprintRequest` read by
`calculateBotScoreWithNoise`: the three optional noise-detection blocks
(`nil` pointers are `none`). -/
structure FingerprintRequest where
  canvasNoiseDetection : Option NoiseDetection
  webglNoiseDetection : Option NoiseDetection
  audioNoiseDetection : Option NoiseDetection

/-- Embedding of `calculateUniquenessScore` (fingerprint.go lines
230-267): fixed
per-component presence weights. -/
def calculateUniquenessScore (fp : Fingerprint) : ℚ :=
  let s : ℚ := 0
  let s := if fp.userAgent ≠ "" then s + 0.1 else s
  let s := if fp.canvas ≠ "" then s + 0.3 else s
  let s := if fp.webGL ≠ "" then s + 0.2 else s
  let s := if fp.audio ≠ "" then s + 0.15 else s
  let s := if fp.fonts.length > 0 then s + 0.15 else s
  let s := if fp.plugins.length > 0 then s + 0.1 else s
  s

/-- The bot keywords scanned in the lowercased user agent
(fingerprint.go line 275). -/
def botKeywords : List String :=
  ["bot", "crawler", "spider", "scraper", "headless", "phantom", "selenium"]

/-- Embedding of `calculateBotScore` (fingerprint.go lines 270-321):
static penalties,
then a top clamp at 1.0. -/
def calculateBotScore (fp : Fingerprint) : ℚ :=
  let ua := strToLower fp.userAgent
  let score : ℚ := 0
  let score := if botKeywords.any (fun kw => strContains ua kw) then score + 0.3 else score
  let score := if !fp.touchSupport && strContains ua "mobile" then score + 0.1 else score
  let score := if goStrLen fp.canvas < 100 ∨ goStrLen fp.canvas > 10000 then score + 0.2 else score
  let score := if fp.webGL = "" ∨ fp.webGL = "undefined" then score + 0.15 else score
  let score := if fp.fonts.length < 5 ∨ fp.fonts.length > 200 then score + 0.1 else score
  let score := if fp.plugins.length = 0 ∨ fp.plugins.length > 50 then score + 0.1 else score
  let score := if fp.screenResolution = "0x0" ∨ fp.screenResolution = "" then score + 0.15 else score
  if score > 1 then 1 else score

/-- The canvas-noise switch block of `calculateBotScoreWithNoise`
(fingerprint.go lines 327-337). -/
def canvasNoiseStep (score : ℚ) (nd : Option NoiseDetection) : ℚ :=
  match nd with
  | some d =>
    if d.hasNoise then
      if d.type = "random_noise" then score + 0.4 * d.confidence
      else if d.type = "pixel_noise" then score + 0.3 * d.confidence
      else if d.type = "high_entropy" then score + 0.2 * d.confidence
      else score
    else score
  | none => score

/-- The WebGL-noise switch block of `calculateBotScoreWithNoise`
(fingerprint.go lines 339-347). -/
def webglNoiseStep (score : ℚ) (nd : Option NoiseDetection) : ℚ :=
  match nd with
  | some d =>
    if d.hasNoise then
      if d.type = "webgl_random_noise" then score + 0.4 * d.confidence
      else if d.type = "webgl_parameter_anomaly" then score + 0.3 * d.confidence
      else score
    else score
  | none => score

/-- The audio-noise switch block of `calculateBotScoreWithNoise`
(fingerprint.go lines 349-355). -/
def audioNoiseStep (score : ℚ) (nd : Option NoiseDetection) : ℚ :=
  match nd with
  | some d =>
    if d.hasNoise then
      if d.type = "audio_anomaly" then score + 0.2 * d.confidence
      else score
    else score
  | none => score

/-- Embedding of `calculateBotScoreWithNoise` (fingerprint.go lines
324-363): the static
score plus the three noise contributions, then a top clamp at 1.0. -/
def calculateBotScoreWithNoise (fp : Fingerprint) (req : FingerprintRequest) : ℚ :=
  let score := calculateBotScore fp
  let score := canvasNoiseStep score req.canvasNoiseDetection
  let score := webglNoiseStep score req.webglNoiseDetection
  let score := audioNoiseStep score req.audioNoiseDetection
  if score > 1 then 1 else score

/-- Embedding of `calculateRiskLevel` (fingerprint.go lines 365-374). -/
def calculateRiskLevel (uniquenessScore botScore : ℚ) : String :=
  if botScore > 0.7 then "HIGH"
  else if botScore > 0.4 then "MEDIUM"
  else "LOW"

/-! ### Analysis persistence

The `analysis` table (database.go lines 67-81) keys rows by the `UNIQUE`
column `fingerprint_hash`; `saveAnalysis` (fingerprint.go lines 468-482)
writes with `INSERT OR REPLACE`, which under the unique constraint deletes
any conflicting row and inserts the new one.  `analyzeFingerprintWithNoise`
(fingerprint.go lines 118-171) reads the previous row's `visit_count` and
writes back either 1 (no previous row) or the previous count plus one,
stamping `last_seen` with the current time. -/

/-- One row of the `analysis` table (`models.Analysis`), restricted to the
fields the scored logic writes and reads; `lastSeen` is a timestamp. -/
structure Analysis where
  fingerprintHash : String
  uniquenessScore : ℚ
  botScore : ℚ
  riskLevel : String
  isBot : Bool
  visitCount : Nat
  lastSeen : Nat

/-- Embedding of `saveAnalysis` (fingerprint.go lines 468-482):
an `INSERT OR REPLACE` on
the `UNIQUE` `fingerprint_hash` column. -/
def saveAnalysis (table : List Analysis) (a : Analysis) : List Analysis :=
  table.filter (fun r => !(r.fingerprintHash == a.fingerprintHash)) ++ [a]

/-- Embedding of `analyzeFingerprintWithNoise` (fingerprint.go lines
118-171): compute
the scores and verdicts, look up the previous visit count for the hash,
and upsert the analysis row; returns the produced row and the updated
table. -/
def analyzeFingerprintWithNoise (table : List Analysis) (fp : Fingerprint)
    (req : FingerprintRequest) (now : Nat) : Analysis × List Analysis :=
  let uniquenessScore := calculateUniquenessScore fp
  let botScore := calculateBotScoreWithNoise fp req
  let riskLevel := calculateRiskLevel uniquenessScore botScore
  let isBot := decide (botScore > 0.7)
  let prev := table.find? (fun r => r.fingerprintHash == fp.fingerprintHash)
  let visitCount := match prev with
    | none => 1
    | some r => r.visitCount + 1
  let analysis : Analysis :=
    { fingerprintHash := fp.fingerprintHash, uniquenessScore := uniquenessScore,
      botScore := botScore, riskLevel := riskLevel, isBot := isBot,
      visitCount := visitCount, lastSeen := now }
  (analysis, saveAnalysis table analysis)

/-! ### Backend fallback hash

`GenerateFingerprintHash` (database.go lines 100-118): sort the map keys,
join `key:value` pairs with `"|"`, SHA-256, lowercase hex.  The Go map is
modelled as an association list whose keys are distinct and whose values
are already rendered by `fmt.Sprintf("%v", ...)`; `sort.Strings` is
embedded as insertion sort, which agrees with any correct sort. -/

/-- Embedding of `GenerateFingerprintHash` (database.go lines 100-118). -/
def GenerateFingerprintHash (data : List (String × String)) : String :=
  let keys := List.insertionSort (· ≤ ·) (data.map Prod.fst)
  let parts := keys.map (fun k => k ++ ":" ++ ((data.lookup k).getD ""))
  let combined := String.intercalate "|" parts
  buf2hex (sha256 (strBytes combined))

/-- The audio noise confidence formula `min(0.95, 0.6 + 0.15 * k)`
(audio-utils.js lines 398-401). -/
def audioNoiseConfidence (k : Nat) : ℚ := min 0.95 (0.6 + (k : ℚ) * 0.15)

/-! ## Claims -/

/-- C1: the composite identity hash is a pure function of the nine
per-modality sub-fingerprints; two sessions whose sub-fingerprints agree
pairwise produce the same `mainFingerprint`, whatever their timestamps or
any other session data. -/
theorem generateMainFingerprint_pure (fp1 fp2 : CollectedFingerprint)
    (hb : fp1.basic = fp2.basic) (hs : fp1.screen = fp2.screen)
    (ht : fp1.timezone = fp2.timezone) (hh : fp1.hardware = fp2.hardware)
    (hc : fp1.canvas = fp2.canvas) (hw : fp1.webgl = fp2.webgl)
    (ha : fp1.audio = fp2.audio) (hf : fp1.fonts = fp2.fonts)
    (hg : fp1.storage = fp2.storage) :
    generateMainFingerprint fp1 = generateMainFingerprint fp2 := by
  simp only [generateMainFingerprint, hb, hs, ht, hh, hc, hw, ha, hf, hg]

/-- Witness for C1: two concrete sessions with equal sub-fingerprints but
different timestamps hash identically. -/
theorem generateMainFingerprint_pure_witness :
    generateMainFingerprint
        ⟨some "b", some "s", some "t", some "h", some "c", some "w",
         some "a", some "f", some "g", 1111⟩
      = generateMainFingerprint
        ⟨some "b", some "s", some "t", some "h", some "c", some "w",
         some "a", some "f", some "g", 2222⟩ :=
  generateMainFingerprint_pure _ _ rfl rfl rfl rfl rfl rfl rfl rfl rfl

/-- C6: for the canvas modality (legacy collector `detectCanvasNoise`),
dynamic noise holds iff a re-render of the identical test pattern differs
from the original render; static noise holds iff the pixel-variance flag
fires or the entropy signal is high; and the reported confidence is 0.9
when either flag is set and 0.8 otherwise. -/
theorem detectCanvasNoise_spec (orig r1 r2 : String) (pixelData : List Pixel) (entropy : ℚ) :
    ((detectCanvasNoise orig r1 r2 pixelData entropy).hasDynamicNoise = true
      ↔ ¬(r1 = orig ∧ r2 = orig))
    ∧ ((detectCanvasNoise orig r1 r2 pixelData entropy).hasStaticNoise = true
      ↔ ((analyzePixels pixelData).hasNoise = true ∨ entropy > 7.8))
    ∧ (detectCanvasNoise orig r1 r2 pixelData entropy).confidence =
      (if (detectCanvasNoise orig r1 r2 pixelData entropy).hasDynamicNoise
          || (detectCanvasNoise orig r1 r2 pixelData entropy).hasStaticNoise
        then 0.9 else 0.8) := by
  refine ⟨?_, ?_, rfl⟩
  · simp [detectCanvasNoise, not_and_or]
    tauto
  · simp [detectCanvasNoise]

/-- C5: the persistent-noise WebGL probe reports no persistent noise when
the red-rectangle readback hash is the allow-listed constant, and reports
persistent noise with confidence at least 0.8 for any other 64-character
hex hash. -/
theorem webglPersistentNoise_spec (fp : String) (rn : Option RandomNoiseResult) :
    (analyzeWebGLSpoofing (some (persistentNoiseVerdict redRectangleKnownHash)) rn).hasPersistentNoise
        = false
    ∧ (isHex64 fp = true → fp ≠ redRectangleKnownHash →
        (analyzeWebGLSpoofing (some (persistentNoiseVerdict fp)) rn).hasPersistentNoise = true
        ∧ (analyzeWebGLSpoofing (some (persistentNoiseVerdict fp)) rn).confidence ≥ 0.8) := by
  constructor
  · cases rn <;> simp [analyzeWebGLSpoofing, persistentNoiseVerdict, knownHashes]
  · intro _ hne
    have hsp : (persistentNoiseVerdict fp).isSpoofed = true := by
      simp [persistentNoiseVerdict, knownHashes, hne]
    cases rn with
    | none =>
      refine ⟨by simp [analyzeWebGLSpoofing, hsp], ?_⟩
      simp only [analyzeWebGLSpoofing, hsp]
      norm_num
    | some r =>
      refine ⟨by simp [analyzeWebGLSpoofing, hsp], ?_⟩
      simp only [analyzeWebGLSpoofing, hsp]
      by_cases hr : r.isSpoofed = true <;> simp [hr]

/-- Witness for C5: the all-zero 64-hex readback hash is flagged as
persistent noise with confidence at least 0.8, while the allow-listed
constant is not flagged. -/
theorem webglPersistentNoise_spec_witness :
    isHex64 "0000000000000000000000000000000000000000000000000000000000000000" = true
    ∧ "0000000000000000000000000000000000000000000000000000000000000000"
        ≠ redRectangleKnownHash
    ∧ (analyzeWebGLSpoofing (some (persistentNoiseVerdict redRectangleKnownHash)) none).hasPersistentNoise
        = false
    ∧ (analyzeWebGLSpoofing (some (persistentNoiseVerdict
        "0000000000000000000000000000000000000000000000000000000000000000")) none).hasPersistentNoise
        = true
    ∧ (analyzeWebGLSpoofing (some (persistentNoiseVerdict
        "0000000000000000000000000000000000000000000000000000000000000000")) none).confidence
        ≥ 0.8 :=
  ⟨by decide, by decide,
    (webglPersistentNoise_spec "0000000000000000000000000000000000000000000000000000000000000000"
      none).1,
    ((webglPersistentNoise_spec "0000000000000000000000000000000000000000000000000000000000000000"
      none).2 (by decide) (by decide)).1,
    ((webglPersistentNoise_spec "0000000000000000000000000000000000000000000000000000000000000000"
      none).2 (by decide) (by decide)).2⟩

/-- C9: `calculateRiskLevel` returns HIGH iff the bot score exceeds 0.7,
MEDIUM iff it lies in (0.4, 0.7], LOW otherwise; and the analysis produced
by `analyzeFingerprintWithNoise` sets `isBot` iff its bot score exceeds
0.7. -/
theorem calculateRiskLevel_spec (u b : ℚ) (table : List Analysis) (fp : Fingerprint)
    (req : FingerprintRequest) (now : Nat) :
    (calculateRiskLevel u b = "HIGH" ↔ b > 0.7)
    ∧ (calculateRiskLevel u b = "MEDIUM" ↔ (0.4 < b ∧ b ≤ 0.7))
    ∧ (calculateRiskLevel u b = "LOW" ↔ b ≤ 0.4)
    ∧ ((analyzeFingerprintWithNoise table fp req now).1.isBot = true
      ↔ calculateBotScoreWithNoise fp req > 0.7) := by
  refine ⟨?_, ?_, ?_, ?_⟩
  · unfold calculateRiskLevel
    split_ifs with h1 h2
    · simp [h1]
    · simp only [show ("MEDIUM" : String) = "HIGH" ↔ False by simp]
      constructor
      · exact False.elim
      · intro h; exact absurd h h1
    · simp only [show ("LOW" : String) = "HIGH" ↔ False by simp]
      constructor
      · exact False.elim
      · intro h; exact absurd h h1
  · unfold calculateRiskLevel
    split_ifs with h1 h2
    · simp only [show ("HIGH" : String) = "MEDIUM" ↔ False by simp, false_iff]
      intro h
      exact absurd h1 (not_lt.mpr h.2)
    · simp only [show ("MEDIUM" : String) = "MEDIUM" ↔ True by simp, true_iff]
      exact ⟨h2, le_of_not_lt h1⟩
    · simp only [show ("LOW" : String) = "MEDIUM" ↔ False by simp, false_iff]
      intro h
      exact h2 h.1
  · unfold calculateRiskLevel
    split_ifs with h1 h2
    · simp only [show ("HIGH" : String) = "LOW" ↔ False by simp, false_iff, not_le]
      linarith
    · simp only [show ("MEDIUM" : String) = "LOW" ↔ False by simp, false_iff, not_le]
      linarith
    · simp only [show ("LOW" : String) = "LOW" ↔ True by simp, true_iff]
      exact le_of_not_lt h2
  · simp [analyzeFingerprintWithNoise]

theorem segMismatchCount_pos_iff (d1 d2 : DetailedFp) :
    0 < segMismatchCount d1 d2
      ↔ (d1.main ≠ d2.main ∨ d1.early ≠ d2.early ∨ d1.mid ≠ d2.mid ∨ d1.late ≠ d2.late) := by
  unfold segMismatchCount
  split_ifs <;> simp_all

/-- C4: on two successful audio trials, dynamic noise holds iff the main
fingerprints mismatch or some of the four segment fingerprints mismatch;
the reported confidence is `min(0.95, 0.6 + 0.15 * noiseIndicators)` when
noise is detected and 0.8 otherwise; and that formula is non-decreasing in
the indicator count and never exceeds 0.95. -/
theorem analyzeCompressorResults_spec (t1 t2 : AudioTest) (rest : List AudioTest)
    (d1 d2 : DetailedFp) (k j : Nat)
    (he1 : t1.fingerprint ≠ "error") (he2 : t2.fingerprint ≠ "error")
    (hd1 : t1.detailedFingerprint = some d1) (hd2 : t2.detailedFingerprint = some d2) :
    ((analyzeCompressorResults (t1 :: t2 :: rest)).hasDynamicNoise = true
      ↔ (t1.fingerprint ≠ t2.fingerprint ∨ d1.main ≠ d2.main ∨ d1.early ≠ d2.early
         ∨ d1.mid ≠ d2.mid ∨ d1.late ≠ d2.late))
    ∧ (analyzeCompressorResults (t1 :: t2 :: rest)).confidence =
        (if (analyzeCompressorResults (t1 :: t2 :: rest)).hasDynamicNoise
          then audioNoiseConfidence (analyzeCompressorResults (t1 :: t2 :: rest)).noiseIndicators
          else 0.8)
    ∧ (k ≤ j → audioNoiseConfidence k ≤ audioNoiseConfidence j)
    ∧ audioNoiseConfidence k ≤ 0.95 := by
  have hcond : ¬(t1.fingerprint = "error" ∨ t2.fingerprint = "error") := by
    rintro (h | h) <;> [exact he1 h; exact he2 h]
  refine ⟨?_, ?_, ?_, min_le_left _ _⟩
  · simp only [analyzeCompressorResults, hd1, hd2, if_neg hcond, Bool.or_eq_true,
      Bool.not_eq_eq_eq_not, Bool.not_true, beq_eq_false_iff_ne, ne_eq,
      decide_eq_true_eq, segMismatchCount_pos_iff]
  · simp only [analyzeCompressorResults, hd1, hd2, if_neg hcond]
    split <;> rfl
  · intro hkj
    unfold audioNoiseConfidence
    have : (k : ℚ) ≤ (j : ℚ) := Nat.cast_le.mpr hkj
    have : (k : ℚ) * 0.15 ≤ (j : ℚ) * 0.15 := by nlinarith
    exact min_le_min le_rfl (by linarith)

/-- Witness for C4: two concrete successful trials whose main fingerprints
differ are classified as dynamic noise, with the formula confidence, and
the formula is monotone from 1 to 2 indicators and bounded by 0.95. -/
theorem analyzeCompressorResults_spec_witness :
    ((⟨"f1", some ⟨"m", "e", "i", "l"⟩, 1⟩ : AudioTest).fingerprint ≠ "error")
    ∧ ((⟨"f2", some ⟨"m", "e", "i", "l"⟩, 1⟩ : AudioTest).fingerprint ≠ "error")
    ∧ ((analyzeCompressorResults
        [⟨"f1", some ⟨"m", "e", "i", "l"⟩, 1⟩, ⟨"f2", some ⟨"m", "e", "i", "l"⟩, 1⟩]).hasDynamicNoise
          = true
      ↔ (("f1" : String) ≠ "f2" ∨ ("m" : String) ≠ "m" ∨ ("e" : String) ≠ "e"
         ∨ ("i" : String) ≠ "i" ∨ ("l" : String) ≠ "l"))
    ∧ (analyzeCompressorResults
        [⟨"f1", some ⟨"m", "e", "i", "l"⟩, 1⟩, ⟨"f2", some ⟨"m", "e", "i", "l"⟩, 1⟩]).confidence =
        (if (analyzeCompressorResults
            [⟨"f1", some ⟨"m", "e", "i", "l"⟩, 1⟩, ⟨"f2", some ⟨"m", "e", "i", "l"⟩, 1⟩]).hasDynamicNoise
          then audioNoiseConfidence (analyzeCompressorResults
            [⟨"f1", some ⟨"m", "e", "i", "l"⟩, 1⟩, ⟨"f2", some ⟨"m", "e", "i", "l"⟩, 1⟩]).noiseIndicators
          else 0.8)
    ∧ (1 ≤ 2 → audioNoiseConfidence 1 ≤ audioNoiseConfidence 2)
    ∧ audioNoiseConfidence 1 ≤ 0.95 := by
  have h := analyzeCompressorResults_spec ⟨"f1", some ⟨"m", "e", "i", "l"⟩, 1⟩
    ⟨"f2", some ⟨"m", "e", "i", "l"⟩, 1⟩ [] ⟨"m", "e", "i", "l"⟩ ⟨"m", "e", "i", "l"⟩ 1 2
    (by decide) (by decide) rfl rfl
  exact ⟨by decide, by decide, h.1, h.2.1, h.2.2.1, h.2.2.2⟩

/-- C8: a failed or absent audio comparison is never reported as noise nor
as a confident verdict: with fewer than two trials, or with an `"error"`
trial fingerprint, `analyzeCompressorResults` returns confidence 0 and no
dynamic noise (the internal `catch` branch of the source returns the same
values on an analysis exception). -/
theorem analyzeCompressorResults_failure (l : List AudioTest) (t1 t2 : AudioTest)
    (rest : List AudioTest) :
    (l.length < 2 →
      (analyzeCompressorResults l).confidence = 0
      ∧ (analyzeCompressorResults l).hasDynamicNoise = false)
    ∧ ((t1.fingerprint = "error" ∨ t2.fingerprint = "error") →
      (analyzeCompressorResults (t1 :: t2 :: rest)).confidence = 0
      ∧ (analyzeCompressorResults (t1 :: t2 :: rest)).hasDynamicNoise = false) := by
  constructor
  · intro hlen
    match l, hlen with
    | [], _ => exact ⟨rfl, rfl⟩
    | [_], _ => exact ⟨rfl, rfl⟩
    | a :: b :: t, hlen => simp at hlen; omega
  · intro herr
    have hred : analyzeCompressorResults (t1 :: t2 :: rest) =
        { hasDynamicNoise := false, confidence := 0,
          mainFingerprintMatch := false, noiseIndicators := 0 } := by
      simp only [analyzeCompressorResults, if_pos herr]
    rw [hred]
    exact ⟨rfl, rfl⟩

theorem ite_add_nonneg {s q : ℚ} (c : Prop) [Decidable c] (hs : 0 ≤ s) (hq : 0 ≤ q) :
    0 ≤ if c then s + q else s := by
  split <;> linarith

theorem clamp_nonneg {s : ℚ} (hs : 0 ≤ s) : 0 ≤ if s > 1 then 1 else s := by
  split <;> linarith

theorem calculateBotScore_nonneg (fp : Fingerprint) : 0 ≤ calculateBotScore fp := by
  simp only [calculateBotScore]
  exact clamp_nonneg (ite_add_nonneg _ (ite_add_nonneg _ (ite_add_nonneg _ (ite_add_nonneg _
    (ite_add_nonneg _ (ite_add_nonneg _ (ite_add_nonneg _ le_rfl (by norm_num)) (by norm_num))
    (by norm_num)) (by norm_num)) (by norm_num)) (by norm_num)) (by norm_num))

theorem le_canvasNoiseStep (s : ℚ) (nd : Option NoiseDetection)
    (h : ∀ d, nd = some d → 0 ≤ d.confidence) : s ≤ canvasNoiseStep s nd := by
  cases nd with
  | none => simp [canvasNoiseStep]
  | some d =>
    have hc := h d rfl
    have h1 : 0 ≤ (0.4 : ℚ) * d.confidence := mul_nonneg (by norm_num) hc
    have h2 : 0 ≤ (0.3 : ℚ) * d.confidence := mul_nonneg (by norm_num) hc
    have h3 : 0 ≤ (0.2 : ℚ) * d.confidence := mul_nonneg (by norm_num) hc
    simp only [canvasNoiseStep]
    split_ifs <;> linarith

theorem le_webglNoiseStep (s : ℚ) (nd : Option NoiseDetection)
    (h : ∀ d, nd = some d → 0 ≤ d.confidence) : s ≤ webglNoiseStep s nd := by
  cases nd with
  | none => simp [webglNoiseStep]
  | some d =>
    have hc := h d rfl
    have h1 : 0 ≤ (0.4 : ℚ) * d.confidence := mul_nonneg (by norm_num) hc
    have h2 : 0 ≤ (0.3 : ℚ) * d.confidence := mul_nonneg (by norm_num) hc
    simp only [webglNoiseStep]
    split_ifs <;> linarith

theorem le_audioNoiseStep (s : ℚ) (nd : Option NoiseDetection)
    (h : ∀ d, nd = some d → 0 ≤ d.confidence) : s ≤ audioNoiseStep s nd := by
  cases nd with
  | none => simp [audioNoiseStep]
  | some d =>
    have hc := h d rfl
    have h1 : 0 ≤ (0.2 : ℚ) * d.confidence := mul_nonneg (by norm_num) hc
    simp only [audioNoiseStep]
    split_ifs <;> linarith

/-- Counterexample for C3: the clamp in `calculateBotScoreWithNoise` only
caps the top of the range, and the client-supplied noise confidence is not
validated, so a request carrying a negative canvas-noise confidence drives
the bot score below 0 — the claim that the score lies in `[0, 1]` for
arbitrary confidence values is false. -/
theorem calculateBotScoreWithNoise_below_zero_cex :
    calculateBotScoreWithNoise
      { fingerprintHash := "h", userAgent := "", screenResolution := "", canvas := "",
        webGL := "", audio := "", fonts := [], plugins := [], touchSupport := false }
      { canvasNoiseDetection := some { hasNoise := true, type := "random_noise", confidence := -10 },
        webglNoiseDetection := none, audioNoiseDetection := none } < 0 := by
  have hbase : calculateBotScore
      { fingerprintHash := "h", userAgent := "", screenResolution := "", canvas := "",
        webGL := "", audio := "", fonts := [], plugins := [], touchSupport := false } = 0.7 := by
    norm_num [calculateBotScore, botKeywords, strToLower, strContains, hasSubList,
      leadsWith, goStrLen]
  norm_num [calculateBotScoreWithNoise, canvasNoiseStep, webglNoiseStep, audioNoiseStep, hbase]

/-- C3 (amended): whenever every noise-detection block present in the
request carries a nonnegative confidence, `calculateBotScoreWithNoise`
returns a score in the closed interval `[0, 1]`, however many static
penalties and noise contributions trigger simultaneously. -/
theorem calculateBotScoreWithNoise_mem_unit (fp : Fingerprint) (req : FingerprintRequest)
    (hc : ∀ d, req.canvasNoiseDetection = some d → 0 ≤ d.confidence)
    (hw : ∀ d, req.webglNoiseDetection = some d → 0 ≤ d.confidence)
    (ha : ∀ d, req.audioNoiseDetection = some d → 0 ≤ d.confidence) :
    0 ≤ calculateBotScoreWithNoise fp req ∧ calculateBotScoreWithNoise fp req ≤ 1 := by
  have h0 := calculateBotScore_nonneg fp
  have h1 := le_canvasNoiseStep (calculateBotScore fp) req.canvasNoiseDetection hc
  have h2 := le_webglNoiseStep (canvasNoiseStep (calculateBotScore fp) req.canvasNoiseDetection)
    req.webglNoiseDetection hw
  have h3 := le_audioNoiseStep
    (webglNoiseStep (canvasNoiseStep (calculateBotScore fp) req.canvasNoiseDetection)
      req.webglNoiseDetection) req.audioNoiseDetection ha
  simp only [calculateBotScoreWithNoise]
  constructor <;> split_ifs <;> linarith

/-- Witness for C3 (amended): a concrete request whose canvas noise block
has confidence 0.9 keeps the score inside `[0, 1]`. -/
theorem calculateBotScoreWithNoise_mem_unit_witness :
    (∀ d, (some { hasNoise := true, type := "random_noise", confidence := 0.9 }
        : Option NoiseDetection) = some d → 0 ≤ d.confidence)
    ∧ (∀ d, (none : Option NoiseDetection) = some d → 0 ≤ d.confidence)
    ∧ (0 ≤ calculateBotScoreWithNoise
        { fingerprintHash := "h", userAgent := "", screenResolution := "", canvas := "",
          webGL := "", audio := "", fonts := [], plugins := [], touchSupport := false }
        { canvasNoiseDetection := some { hasNoise := true, type := "random_noise", confidence := 0.9 },
          webglNoiseDetection := none, audioNoiseDetection := none }
      ∧ calculateBotScoreWithNoise
        { fingerprintHash := "h", userAgent := "", screenResolution := "", canvas := "",
          webGL := "", audio := "", fonts := [], plugins := [], touchSupport := false }
        { canvasNoiseDetection := some { hasNoise := true, type := "random_noise", confidence := 0.9 },
          webglNoiseDetection := none, audioNoiseDetection := none } ≤ 1) := by
  refine ⟨?_, ?_, ?_⟩
  · rintro d hd
    injection hd with hd
    subst hd
    norm_num
  · rintro d hd
    cases hd
  · exact calculateBotScoreWithNoise_mem_unit _ _
      (by rintro d hd; injection hd with hd; subst hd; norm_num)
      (by rintro d hd; cases hd)
      (by rintro d hd; cases hd)

theorem lookup_cons_eq_ite (k : String) (x : String × String) (l : List (String × String)) :
    (x :: l).lookup k = if k == x.1 then some x.2 else l.lookup k := by
  rcases x with ⟨a, b⟩
  simp [List.lookup]
  split <;> simp_all

/-- Looking a key up in an association list with distinct keys is invariant
under permutation of the entries. -/
theorem lookup_perm_eq {l1 l2 : List (String × String)} (hp : l1.Perm l2) :
    (l1.map Prod.fst).Nodup → ∀ k, l1.lookup k = l2.lookup k := by
  induction hp with
  | nil => intro _ _; rfl
  | cons x h ih =>
    intro hnd k
    have hnd' : (List.map Prod.fst _).Nodup := (List.nodup_cons.mp hnd).2
    rw [lookup_cons_eq_ite, lookup_cons_eq_ite, ih hnd' k]
  | swap x y l =>
    intro hnd k
    have hxy : y.1 ≠ x.1 := by
      have := (List.nodup_cons.mp hnd).1
      simp only [List.map_cons, List.mem_cons] at this
      exact fun hc => this (Or.inl hc)
    rw [lookup_cons_eq_ite, lookup_cons_eq_ite, lookup_cons_eq_ite, lookup_cons_eq_ite]
    by_cases hky : k == y.1 <;> by_cases hkx : k == x.1 <;> simp [hky, hkx]
    exact absurd ((beq_iff_eq.mp hky).symm.trans (beq_iff_eq.mp hkx)) hxy
  | trans h1 h2 ih1 ih2 =>
    intro hnd k
    rw [ih1 hnd k, ih2 (((h1.map Prod.fst).nodup_iff).mp hnd) k]

/-- Sorting is determined by the multiset of elements: permuted inputs
sort to the same list. -/
theorem insertionSort_eq_of_perm {l1 l2 : List String} (hp : l1.Perm l2) :
    List.insertionSort (· ≤ ·) l1 = List.insertionSort (· ≤ ·) l2 :=
  List.eq_of_perm_of_sorted
    ((List.perm_insertionSort _ l1).trans (hp.trans (List.perm_insertionSort _ l2).symm))
    (List.sorted_insertionSort _ l1) (List.sorted_insertionSort _ l2)

/-- C10: the backend fallback hash is independent of map iteration order —
two maps with exactly the same key-value pairs hash identically, because
the keys are sorted before joining — and its output is always a
64-character lowercase hexadecimal string. -/
theorem GenerateFingerprintHash_spec (d1 d2 : List (String × String))
    (hnd : (d1.map Prod.fst).Nodup) (hp : d1.Perm d2) :
    GenerateFingerprintHash d1 = GenerateFingerprintHash d2
    ∧ isHex64 (GenerateFingerprintHash d1) = true := by
  constructor
  · have hkeys : List.insertionSort (· ≤ ·) (d1.map Prod.fst)
        = List.insertionSort (· ≤ ·) (d2.map Prod.fst) :=
      insertionSort_eq_of_perm (hp.map Prod.fst)
    have hfun : (fun k => k ++ ":" ++ ((d1.lookup k).getD ""))
        = (fun k => k ++ ":" ++ ((d2.lookup k).getD "")) :=
      funext fun k => by rw [lookup_perm_eq hp hnd k]
    simp only [GenerateFingerprintHash]
    rw [hkeys, hfun]
  · exact buf2hex_sha256_isHex64 _

/-- Witness for C10: two concrete two-entry maps that are permutations of
each other hash to the same 64-character lowercase hex string. -/
theorem GenerateFingerprintHash_spec_witness :
    (([("b", "2"), ("a", "1")].map Prod.fst).Nodup : Prop)
    ∧ List.Perm [("b", "2"), ("a", "1")] [("a", "1"), ("b", "2")]
    ∧ GenerateFingerprintHash [("b", "2"), ("a", "1")]
        = GenerateFingerprintHash [("a", "1"), ("b", "2")]
    ∧ isHex64 (GenerateFingerprintHash [("b", "2"), ("a", "1")]) = true := by
  have hnd : (([("b", "2"), ("a", "1")] : List (String × String)).map Prod.fst).Nodup := by
    decide
  have hp : List.Perm [("b", "2"), ("a", "1")] [("a", "1"), ("b", "2")] :=
    List.Perm.swap ("a", "1") ("b", "2") []
  exact ⟨hnd, hp, (GenerateFingerprintHash_spec _ _ hnd hp).1,
    (GenerateFingerprintHash_spec _ _ hnd hp).2⟩

theorem find?_filter_ne_hash (table : List Analysis) (h : String) :
    (table.filter (fun r => !(r.fingerprintHash == h))).find?
      (fun r => r.fingerprintHash == h) = none := by
  rw [List.find?_eq_none]
  intro r hr
  have := (List.mem_filter.mp hr).2
  simp only [Bool.not_eq_eq_eq_not, Bool.not_true] at this
  simp [this]

theorem countP_filter_ne_hash (table : List Analysis) (h : String) :
    (table.filter (fun r => !(r.fingerprintHash == h))).countP
      (fun r => r.fingerprintHash == h) = 0 := by
  rw [List.countP_eq_zero]
  intro r hr
  have := (List.mem_filter.mp hr).2
  simp only [Bool.not_eq_eq_eq_not, Bool.not_true] at this
  simp [this]

/-- C2: submitting a fingerprint upserts exactly one analysis row for its
hash: the table keeps distinct hashes, exactly one row carries the
submitted hash afterwards and it is the produced analysis, `last_seen` is
stamped with the submission time, a first submission records
`visit_count = 1`, and a later submission of the same hash increments the
stored `visit_count` by exactly 1. -/
theorem analyzeFingerprintWithNoise_upsert (table : List Analysis) (fp : Fingerprint)
    (req : FingerprintRequest) (now : Nat) (r0 : Analysis)
    (hnd : (table.map Analysis.fingerprintHash).Nodup) :
    (((analyzeFingerprintWithNoise table fp req now).2.map Analysis.fingerprintHash).Nodup)
    ∧ ((analyzeFingerprintWithNoise table fp req now).2.countP
        (fun r => r.fingerprintHash == fp.fingerprintHash) = 1)
    ∧ ((analyzeFingerprintWithNoise table fp req now).2.find?
        (fun r => r.fingerprintHash == fp.fingerprintHash)
          = some (analyzeFingerprintWithNoise table fp req now).1)
    ∧ ((analyzeFingerprintWithNoise table fp req now).1.lastSeen = now)
    ∧ (table.find? (fun r => r.fingerprintHash == fp.fingerprintHash) = none →
        (analyzeFingerprintWithNoise table fp req now).1.visitCount = 1)
    ∧ (table.find? (fun r => r.fingerprintHash == fp.fingerprintHash) = some r0 →
        (analyzeFingerprintWithNoise table fp req now).1.visitCount = r0.visitCount + 1) := by
  have hhash : (analyzeFingerprintWithNoise table fp req now).1.fingerprintHash
      = fp.fingerprintHash := rfl
  have ht2 : (analyzeFingerprintWithNoise table fp req now).2
      = saveAnalysis table (analyzeFingerprintWithNoise table fp req now).1 := rfl
  refine ⟨?_, ?_, ?_, rfl, ?_, ?_⟩
  · rw [ht2]
    unfold saveAnalysis
    rw [List.map_append, List.nodup_append]
    refine ⟨(List.Sublist.map _ (List.filter_sublist table)).nodup hnd, by simp, ?_⟩
    intro x hx
    simp only [List.map_cons, List.map_nil, List.mem_cons, List.not_mem_nil, or_false]
    simp only [List.mem_map] at hx
    obtain ⟨r, hr, hrx⟩ := hx
    have := (List.mem_filter.mp hr).2
    simp only [Bool.not_eq_eq_eq_not, Bool.not_true, beq_eq_false_iff_ne] at this
    rw [hhash]
    rw [← hrx]
    exact this
  · rw [ht2]
    unfold saveAnalysis
    rw [List.countP_append, hhash, countP_filter_ne_hash]
    simp [List.countP_cons, hhash]
  · rw [ht2]
    unfold saveAnalysis
    rw [List.find?_append, hhash, find?_filter_ne_hash]
    simp only [Option.none_or]
    exact List.find?_cons_of_pos _ (by simp [hhash])
  · intro hnone
    simp only [analyzeFingerprintWithNoise, hnone]
  · intro hsome
    simp only [analyzeFingerprintWithNoise, hsome]

/-- Witness for C2: submitting the same fingerprint twice into an empty
store records `visit_count = 1`, then exactly one row with
`visit_count = 2`. -/
theorem analyzeFingerprintWithNoise_upsert_witness :
    ((([] : List Analysis).map Analysis.fingerprintHash).Nodup)
    ∧ ((analyzeFingerprintWithNoise [] ⟨"h", "", "", "", "", "", [], [], false⟩ ⟨none, none, none⟩ 5).1.visitCount = 1)
    ∧ (((analyzeFingerprintWithNoise [] ⟨"h", "", "", "", "", "", [], [], false⟩ ⟨none, none, none⟩ 5).2.map
        Analysis.fingerprintHash).Nodup)
    ∧ ((analyzeFingerprintWithNoise [] ⟨"h", "", "", "", "", "", [], [], false⟩ ⟨none, none, none⟩ 5).2.countP
        (fun r => r.fingerprintHash == ("h" : String)) = 1)
    ∧ ((analyzeFingerprintWithNoise [] ⟨"h", "", "", "", "", "", [], [], false⟩ ⟨none, none, none⟩ 5).1.lastSeen
        = 5) := by
  have h := analyzeFingerprintWithNoise_upsert []
    ⟨"h", "", "", "", "", "", [], [], false⟩ ⟨none, none, none⟩ 5
    ⟨"h", 0, 0, "LOW", false, 1, 5⟩ (by simp)
  exact ⟨by simp, h.2.2.2.2.1 rfl, h.1, h.2.1, h.2.2.2.1⟩

/-- A concrete readback buffer: one suspicious opaque pixel among nine
fully transparent pixels. -/
def cexCanvasPixels : List Pixel :=
  ⟨100, 50, 50, 255⟩ :: List.replicate 9 ⟨0, 0, 0, 0⟩

/-- Counterexample for C7: `analyzePixels` divides the suspicious count by
the total pixel count, not by the opaque pixel count.  On a buffer with
one suspicious opaque pixel and nine transparent pixels the suspicious
fraction of opaque pixels is 1 (above 10%), yet no static-noise flag is
raised because 1/10 of all pixels is not above 10%. -/
theorem analyzePixels_opaque_fraction_cex :
    (analyzePixels cexCanvasPixels).hasNoise = false
    ∧ ((cexCanvasPixels.countP suspiciousPixel : ℚ)
        / (cexCanvasPixels.countP (fun p => decide (0 < p.a)) : ℚ) > 0.1) := by
  have hs : cexCanvasPixels.countP suspiciousPixel = 1 := by decide
  have ho : cexCanvasPixels.countP (fun p => decide (0 < p.a)) = 1 := by decide
  have hl : cexCanvasPixels.length = 10 := by decide
  constructor
  · simp only [analyzePixels, hs, hl]
    norm_num
  · rw [hs, ho]
    norm_num

/-- C7 (amended): a pixel is suspicious iff it is opaque with cross-channel
variance strictly inside the 30-200 band; the static-noise flag is raised
iff the suspicious count exceeds 10% of ALL pixels of the buffer (opaque
and transparent alike, not 10% of the opaque pixels), and in that case the
confidence is `min(2 * fraction, 0.95)` for that same fraction of all
pixels. -/
theorem analyzePixels_spec (pixelData : List Pixel) (p : Pixel) :
    ((analyzePixels pixelData).suspiciousPixels = pixelData.countP suspiciousPixel)
    ∧ ((analyzePixels pixelData).totalPixels = pixelData.length)
    ∧ (suspiciousPixel p = true
        ↔ (0 < p.a ∧ 30 < pixelVariance p ∧ pixelVariance p < 200))
    ∧ ((analyzePixels pixelData).hasNoise = true
        ↔ (pixelData.countP suspiciousPixel : ℚ) / (pixelData.length : ℚ) > 0.1)
    ∧ ((analyzePixels pixelData).hasNoise = true →
        (analyzePixels pixelData).confidence
          = min ((pixelData.countP suspiciousPixel : ℚ) / (pixelData.length : ℚ) * 2) 0.95) := by
  refine ⟨?_, ?_, ?_, ?_, ?_⟩
  · simp only [analyzePixels]
    split <;> rfl
  · simp only [analyzePixels]
    split <;> rfl
  · simp [suspiciousPixel, and_assoc]
  · simp only [analyzePixels]
    split <;> rename_i h
    · simpa using h
    · simpa using h
  · simp only [analyzePixels]
    split <;> rename_i h
    · intro _
      rfl
    · intro hfalse
      cases hfalse

/-- Witness for C7 (amended): on the counterexample buffer the amended
characterisation holds, with the no-noise verdict explained by the 10%
threshold over all ten pixels. -/
theorem analyzePixels_spec_witness :
    ((analyzePixels cexCanvasPixels).suspiciousPixels = cexCanvasPixels.countP suspiciousPixel)
    ∧ ((analyzePixels cexCanvasPixels).totalPixels = cexCanvasPixels.length)
    ∧ (suspiciousPixel ⟨100, 50, 50, 255⟩ = true
        ↔ (0 < (Pixel.mk 100 50 50 255).a ∧ 30 < pixelVariance ⟨100, 50, 50, 255⟩
            ∧ pixelVariance ⟨100, 50, 50, 255⟩ < 200))
    ∧ ((analyzePixels cexCanvasPixels).hasNoise = true
        ↔ (cexCanvasPixels.countP suspiciousPixel : ℚ) / (cexCanvasPixels.length : ℚ) > 0.1)
    ∧ ((analyzePixels cexCanvasPixels).hasNoise = true →
        (analyzePixels cexCanvasPixels).confidence
          = min ((cexCanvasPixels.countP suspiciousPixel : ℚ) / (cexCanvasPixels.length : ℚ) * 2)
              0.95) :=
  analyzePixels_spec cexCanvasPixels ⟨100, 50, 50, 255⟩

/-- Witness for C8: the empty trial list and a pair with a failed first
trial both yield confidence 0 and no noise claim. -/
theorem analyzeCompressorResults_failure_witness :
    (([] : List AudioTest).length < 2)
    ∧ ((analyzeCompressorResults ([] : List AudioTest)).confidence = 0
      ∧ (analyzeCompressorResults ([] : List AudioTest)).hasDynamicNoise = false)
    ∧ ((⟨"error", none, 0⟩ : AudioTest).fingerprint = "error"
        ∨ ((⟨"ok", none, 0⟩ : AudioTest)).fingerprint = "error")
    ∧ ((analyzeCompressorResults [⟨"error", none, 0⟩, ⟨"ok", none, 0⟩]).confidence = 0
      ∧ (analyzeCompressorResults [⟨"error", none, 0⟩, ⟨"ok", none, 0⟩]).hasDynamicNoise = false) := by
  refine ⟨by norm_num, ?_, Or.inl rfl, ?_⟩
  · exact (analyzeCompressorResults_failure [] ⟨"error", none, 0⟩ ⟨"ok", none, 0⟩ []).1 (by norm_num)
  · exact (analyzeCompressorResults_failure [] ⟨"error", none, 0⟩ ⟨"ok", none, 0⟩ []).2 (Or.inl rfl)

end BrowserDetection
